import Mathlib

/-!
Verification development for the Smart Travel Assistant repository.

The repository ships a React chat frontend (`App.js` with `handleSendMessage`,
rendering components) and a README describing the Python backend (Inquiry
Router, classifiers, conversational memory).  The frontend is embedded
directly from the source; the backend core is modelled from the
specification, definition by definition, as noted in the doc comments.
-/

/- ### Classification data model (spec §3) -/

/-- Modelled from the spec: payload of a FlightAnalytics classification —
`origin` and `destination` are optional IATA-like codes, `intentModifier`
selects the analytics sub-query (spec §3).  The backend source defining this
record is not in the repository snapshot. -/
structure FlightAnalyticsPayload where
  origin : Option String
  destination : Option String
  intentModifier : String
deriving DecidableEq, Repr

/-- Modelled from the spec: tagged variant over FlightStatus / FlightAnalytics
/ Unknown, payload per variant (spec §3).  The backend source defining this
union is not in the repository snapshot. -/
inductive Classification where
  | flightStatus (flightNumber : String)
  | flightAnalytics (payload : FlightAnalyticsPayload)
  | unknown
deriving DecidableEq, Repr

/-- Modelled from the spec: one conversation turn — utterance, classification,
timestamp (spec §3); immutable once appended. -/
structure ConversationTurn where
  utterance : String
  classification : Classification
  timestamp : Nat
deriving DecidableEq, Repr

/-- Modelled from the spec: ordered sequence of turns, oldest first; the only
long-lived mutable state of the core (spec §3). -/
abbrev ConversationMemory := List ConversationTurn

/- ### String helpers shared by the classifiers -/

def isUpperAlpha (c : Char) : Bool :=
  'A' ≤ c && c ≤ 'Z'

def isDigitChar (c : Char) : Bool :=
  '0' ≤ c && c ≤ '9'

/-- Non-empty alphanumeric string (the FlightStatus `flight_number`
invariant, spec §3). -/
def isAlphanumStr (s : String) : Bool :=
  s ≠ "" && s.toList.all Char.isAlphanum

/-- IATA-like 3-letter airport code: exactly three uppercase letters
(spec §3, §4.2 rule 2). -/
def isAirportCode (s : String) : Bool :=
  s.length = 3 && s.toList.all isUpperAlpha

/-- Flight-number pattern `[A-Z]{2}\d{1,4}`: two uppercase letters followed
by one to four digits (spec §4.2 rule 1). -/
def isFlightNumberToken (s : String) : Bool :=
  let cs := s.toList
  decide (3 ≤ cs.length) && decide (cs.length ≤ 6) &&
    (cs.take 2).all isUpperAlpha && (cs.drop 2).all isDigitChar

/-- Lowercasing, character by character. -/
def lowerStr (s : String) : String :=
  String.mk (s.toList.map Char.toLower)

/-- Whitespace trimming at both ends (the JavaScript `trim()` of the
frontend). -/
def trimStr (s : String) : String :=
  String.mk
    (((s.toList.dropWhile Char.isWhitespace).reverse.dropWhile Char.isWhitespace).reverse)

/-- Accumulator pass of `tokenize`: `cur` holds the current token reversed. -/
def tokenizeAux : List Char → List Char → List String
  | [], cur => if cur.isEmpty then [] else [String.mk cur.reverse]
  | c :: rest, cur =>
    if c.isAlphanum then tokenizeAux rest (c :: cur)
    else if cur.isEmpty then tokenizeAux rest []
    else String.mk cur.reverse :: tokenizeAux rest []

/-- Split an utterance into maximal alphanumeric tokens. -/
def tokenize (u : String) : List String :=
  tokenizeAux u.toList []

/-- `takesLead needle hay` is true when `needle` occurs at the head of
`hay`. -/
def takesLead (needle hay : List Char) : Bool :=
  hay.take needle.length == needle

/-- Substring occurrence over character lists. -/
def containsSub (hay needle : List Char) : Bool :=
  match hay with
  | [] => needle.isEmpty
  | _ :: t => takesLead needle hay || containsSub t needle

/-- Substring occurrence over strings. -/
def strContainsSub (hay needle : String) : Bool :=
  containsSub hay.toList needle.toList

/- ### RuleBasedClassifier (spec §4.2) -/

/-- Status-intent keywords of rule 1 (spec §4.2). -/
def statusKeywords : List String :=
  ["status", "delay", "on time for flight"]

/-- Analytics-intent keywords of rule 2 (spec §4.2). -/
def analyticsKeywords : List String :=
  ["cheapest", "price", "fare", "on-time", "delay trend", "day of week"]

def hasStatusKeyword (u : String) : Bool :=
  statusKeywords.any fun k => strContainsSub (lowerStr u) k

def hasAnalyticsKeyword (u : String) : Bool :=
  analyticsKeywords.any fun k => strContainsSub (lowerStr u) k

/-- First analytics keyword found in the utterance, used as the
`intent_modifier` of a rule-based FlightAnalytics classification. -/
def firstAnalyticsKeyword (u : String) : String :=
  ((analyticsKeywords.find? fun k => strContainsSub (lowerStr u) k).getD "")

/-- First airport-code token occurring after the given (lowercased) marker
word, for the explicit `from X to Y` phrasing of rule 2 (spec §4.2). -/
def codeAfterWord (toks : List String) (w : String) : Option String :=
  match toks with
  | [] => none
  | t :: rest =>
    if lowerStr t = w then rest.find? isAirportCode
    else codeAfterWord rest w

/-- Modelled from the spec: rule 2 route extraction — requires two distinct
airport-code-like tokens; origin/destination taken positionally (first code
= origin, second = destination) unless explicit `from X`/`to Y` phrasing
overrides (spec §4.2).  The spec mentions named cities mappable to codes but
gives no mapping table, so the model recognizes code tokens only.  The
backend source is not in the repository snapshot. -/
def extractRoute (u : String) : Option (String × String) :=
  let toks := tokenize u
  match ((toks.filter isAirportCode).eraseDups) with
  | a :: b :: _ =>
    let o := (codeAfterWord toks "from").getD a
    let d := (codeAfterWord toks "to").getD b
    some (o, d)
  | _ => none

/-- Modelled from the spec: rule 1 — flight-number pattern combined with
status-intent keywords yields FlightStatus (spec §4.2). -/
def ruleFlightStatus (u : String) : Option Classification :=
  if hasStatusKeyword u then
    ((tokenize u).find? isFlightNumberToken).map Classification.flightStatus
  else none

/-- Modelled from the spec: rule 2 — two distinct airport codes combined with
analytics-intent keywords yields FlightAnalytics (spec §4.2). -/
def ruleFlightAnalytics (u : String) : Option Classification :=
  if hasAnalyticsKeyword u then
    (extractRoute u).map fun p =>
      Classification.flightAnalytics ⟨some p.1, some p.2, firstAnalyticsKeyword u⟩
  else none

/-- Modelled from the spec: RuleBasedClassifier.classify — deterministic
matching, top to bottom, first match wins, defaulting to Unknown
(spec §4.2).  The backend source is not in the repository snapshot. -/
def RuleBasedClassifier.classify (u : String) : Classification :=
  match ruleFlightStatus u with
  | some c => c
  | none =>
    match ruleFlightAnalytics u with
    | some c => c
    | none => Classification.unknown

/- ### LLMClassifier (spec §4.1) -/

/-- Modelled from the spec: failure reasons of the LLM classification path —
network/timeout error, malformed output, empty output all collapse to
ClassifierFailure (spec §4.1).  The backend source is not in the repository
snapshot. -/
inductive ClassifierFailureReason where
  | networkError
  | timeout
  | malformedOutput
deriving DecidableEq, Repr

/-- Modelled from the spec: shape of the text the LLM backend returns, after
an attempted JSON parse — either not a JSON object at all, or an object with
a variant tag and string fields (spec §4.1, §6). -/
inductive LlmRawResponse where
  | noJson (text : String)
  | jsonObject (tag : String) (fields : List (String × String))
deriving DecidableEq, Repr

/-- Modelled from the spec: the Classification schema check of §4.1 — the
response must parse into one of the three variants with every field of a
valid type (non-empty alphanumeric flight number; airport codes of exactly
three uppercase letters). -/
def schemaValid : LlmRawResponse → Bool
  | .noJson _ => false
  | .jsonObject tag fields =>
    (tag = "flight_status" && (fields.lookup "flight_number").any isAlphanumStr)
    || (tag = "flight_analytics" && (fields.lookup "origin").all isAirportCode
          && (fields.lookup "destination").all isAirportCode)
    || tag = "unknown"

/-- Modelled from the spec: parse the LLM response into a Classification,
treating any schema violation as ClassifierFailure rather than as Unknown
(spec §4.1). -/
def parseLlmResponse : LlmRawResponse → Except ClassifierFailureReason Classification
  | .noJson _ => .error .malformedOutput
  | .jsonObject tag fields =>
    if tag = "flight_status" then
      match fields.lookup "flight_number" with
      | some fn =>
        if isAlphanumStr fn then .ok (.flightStatus fn)
        else .error .malformedOutput
      | none => .error .malformedOutput
    else if tag = "flight_analytics" then
      let o := fields.lookup "origin"
      let d := fields.lookup "destination"
      if o.all isAirportCode && d.all isAirportCode then
        .ok (.flightAnalytics ⟨o, d, (fields.lookup "intent_modifier").getD ""⟩)
      else .error .malformedOutput
    else if tag = "unknown" then .ok .unknown
    else .error .malformedOutput

/-- Modelled from the spec: outcome of one call to the LLM backend, as seen
by LLMClassifier — the transport may fail or time out, or the backend
responds with text (spec §4.1, §6). -/
inductive LlmOutcome where
  | networkError
  | timeout
  | responded (response : LlmRawResponse)
deriving DecidableEq, Repr

/-- Modelled from the spec: LLMClassifier.classify — network/timeout errors
and malformed output all collapse to ClassifierFailure; a conforming
response yields its Classification (spec §4.1).  The backend source is not
in the repository snapshot. -/
def LLMClassifier.classify : LlmOutcome → Except ClassifierFailureReason Classification
  | .networkError => .error .networkError
  | .timeout => .error .timeout
  | .responded r => parseLlmResponse r

/- ### QueryClassifier (spec §4.3) -/

/-- Modelled from the spec: an LLM backend, abstracted as the outcome of one
call given the utterance and the context window (spec §4.3, §6). -/
abbrev LlmBackend := String → List ConversationTurn → LlmOutcome

/-- Context window size N of the LLM path (spec §4.1, default 3). -/
def llmWindow : Nat := 3

/-- Last `n` turns of the memory, oldest first. -/
def recentWindow (n : Nat) (memory : ConversationMemory) : List ConversationTurn :=
  memory.drop (memory.length - n)

/-- Modelled from the spec: QueryClassifier.classify — try the configured LLM
backend with the last-N window; on ClassifierFailure or absence of a
backend, fall back to RuleBasedClassifier on the utterance alone
(spec §4.3).  The backend source is not in the repository snapshot. -/
def QueryClassifier.classify (backend : Option LlmBackend) (utterance : String)
    (memory : ConversationMemory) : Classification :=
  match backend with
  | none => RuleBasedClassifier.classify utterance
  | some llm =>
    match LLMClassifier.classify (llm utterance (recentWindow llmWindow memory)) with
    | .ok c => c
    | .error _ => RuleBasedClassifier.classify utterance

/- ### AgentResult and collaborators (spec §3, §6, §7) -/

/-- Modelled from the spec: single status record returned by the
Flight-Status collaborator (spec §6; fields per the README sample). -/
structure StatusRecord where
  flightNumber : String
  route : String
  status : String
deriving DecidableEq, Repr

/-- Modelled from the spec: one ranked analytics row — fare in cents plus the
flight number used as the tie-breaking secondary key (spec §4.5; README
sample rows). -/
structure FareRecord where
  price : Nat
  flightNumber : String
  date : String
deriving DecidableEq, Repr

/-- Modelled from the spec: AgentResult — structured success payload (status
record, ranked rows, or aggregate statistic) or a typed failure of the §7
taxonomy (MissingEntity, InvalidInput, CollaboratorFailure) or a
clarification request for Unknown (spec §3, §4.4, §7). -/
inductive AgentResult where
  | statusOk (record : StatusRecord)
  | ranked (rows : List FareRecord)
  | aggregate (description : String) (value : Int)
  | missingEntity (field : String)
  | invalidInput (field : String)
  | clarifyUnknown
  | collabFailure (cause : String)
deriving DecidableEq, Repr

/-- Record of one outbound collaborator invocation, used to state that the
Router short-circuits without calling any collaborator. -/
inductive CollaboratorCall where
  | statusCall (flightNumber : String)
  | analyticsCall (origin destination modifier : String)
deriving DecidableEq, Repr

/-- Modelled from the spec: the two specialized-agent collaborators the
Router dispatches to, abstracted as functions from their call parameters to
an AgentResult (spec §6). -/
structure Collaborators where
  statusLookup : String → AgentResult
  analyticsQuery : String → String → String → AgentResult

/-- A concrete pair of collaborators, used to instantiate Router statements
on concrete inputs. -/
def constCollab : Collaborators :=
  ⟨fun fn => AgentResult.statusOk ⟨fn, "ORD to LHR", "Scheduled"⟩,
   fun _ _ _ => AgentResult.collabFailure "provider unreachable"⟩

/- ### Router: follow-up resolution and dispatch (spec §4.4) -/

/-- Classification of the most recent turn whose intent was FlightAnalytics,
scanning most recent to oldest (spec §4.4). -/
def findAnalytics : List ConversationTurn → Option FlightAnalyticsPayload
  | [] => none
  | t :: rest =>
    match t.classification with
    | .flightAnalytics p => some p
    | _ => findAnalytics rest

/-- Payload of the most recent FlightAnalytics turn in memory (memory is
oldest first, so scan the reversal). -/
def mostRecentAnalytics (memory : ConversationMemory) : Option FlightAnalyticsPayload :=
  findAnalytics memory.reverse

/-- Modelled from the spec: follow-up resolution for a FlightAnalytics
payload — copy each still-missing field from the most recent same-intent
turn, never overwriting an explicitly stated value (spec §4.4).  The backend
source is not in the repository snapshot. -/
def resolvePayload (p : FlightAnalyticsPayload) (memory : ConversationMemory) :
    FlightAnalyticsPayload :=
  match mostRecentAnalytics memory with
  | none => p
  | some q =>
    ⟨if p.origin.isSome then p.origin else q.origin,
     if p.destination.isSome then p.destination else q.destination,
     p.intentModifier⟩

/-- Modelled from the spec: follow-up resolution lifted to classifications —
only FlightAnalytics payloads consult memory (spec §4.4). -/
def resolveFollowUp (c : Classification) (memory : ConversationMemory) : Classification :=
  match c with
  | .flightAnalytics p => .flightAnalytics (resolvePayload p memory)
  | other => other

/-- Modelled from the spec: dispatch on a resolved classification — FlightStatus
calls the status collaborator (after the §7 InvalidInput check on the flight
number), fully resolved FlightAnalytics calls the analytics collaborator,
anything still missing or Unknown short-circuits without any collaborator
call (spec §4.4, §7).  The second component records the outbound call, if
any. -/
def dispatch (collab : Collaborators) : Classification → AgentResult × Option CollaboratorCall
  | .flightStatus fn =>
    if isAlphanumStr fn then (collab.statusLookup fn, some (.statusCall fn))
    else (.invalidInput "flight_number", none)
  | .flightAnalytics p =>
    match p.origin, p.destination with
    | some o, some d =>
      (collab.analyticsQuery o d p.intentModifier, some (.analyticsCall o d p.intentModifier))
    | none, _ => (.missingEntity "origin", none)
    | some _, none => (.missingEntity "destination", none)
  | .unknown => (.clarifyUnknown, none)

/-- Modelled from the spec: Router.handle — resolve follow-ups against
memory, then dispatch (spec §4.4).  The backend source is not in the
repository snapshot. -/
def Router.handle (collab : Collaborators) (c : Classification)
    (memory : ConversationMemory) : AgentResult × Option CollaboratorCall :=
  dispatch collab (resolveFollowUp c memory)

/-- Modelled from the spec: one full turn of a session — classify, resolve,
dispatch, then append exactly one ConversationTurn carrying the
classification actually used, memory-filled fields included (spec §4.4,
end of section). -/
def Session.handleTurn (collab : Collaborators) (backend : Option LlmBackend)
    (memory : ConversationMemory) (utterance : String) (now : Nat) :
    AgentResult × ConversationMemory :=
  let c := QueryClassifier.classify backend utterance memory
  let used := resolveFollowUp c memory
  ((dispatch collab used).1, memory ++ [⟨utterance, used, now⟩])

/- ### ResponseFormatter (spec §4.5) -/

/-- Modelled from the spec: the rendering order of ranked rows — ascending
primary metric (price), ties broken by the flight number as the defined
secondary key (spec §4.5). -/
def fareLe (a b : FareRecord) : Prop :=
  a.price < b.price ∨ (a.price = b.price ∧ a.flightNumber ≤ b.flightNumber)

instance : DecidableRel fareLe := fun a b =>
  inferInstanceAs
    (Decidable (a.price < b.price ∨ (a.price = b.price ∧ a.flightNumber ≤ b.flightNumber)))

/-- Rows in the stable enumeration order used by the formatter. -/
def rankRows (rows : List FareRecord) : List FareRecord :=
  List.insertionSort fareLe rows

/-- One enumerated line of a ranked list, per the README sample
(`1. $135.75 - NK 955 on 2022-05-10`); prices are modelled in cents. -/
def renderRow (i : Nat) (r : FareRecord) : String :=
  toString i ++ ". $" ++ toString r.price ++ " - " ++ r.flightNumber ++ " on " ++ r.date

/-- Enumerated lines for the rows, numbering from `i`. -/
def renderRows (i : Nat) : List FareRecord → List String
  | [] => []
  | r :: rest => renderRow i r :: renderRows (i + 1) rest

/-- Modelled from the spec: ResponseFormatter.format — a pure per-variant
template rendering; ranked lists render as a stable-ordered enumeration and
failures render as apologetic, non-technical text (spec §4.5, §7).  The
backend source is not in the repository snapshot. -/
def ResponseFormatter.format : AgentResult → String
  | .statusOk rec =>
    "Flight " ++ rec.flightNumber ++ ". Route: " ++ rec.route ++ ". Status: " ++ rec.status
  | .ranked rows =>
    "Top results: " ++ String.intercalate "; " (renderRows 1 (rankRows rows))
  | .aggregate description value => description ++ ": " ++ toString value
  | .missingEntity field => "Could you tell me the " ++ field ++ " for your query?"
  | .invalidInput field => "That " ++ field ++ " does not look right. Could you rephrase?"
  | .clarifyUnknown => "Sorry, I did not understand that. Could you rephrase your travel question?"
  | .collabFailure _ => "Sorry, I could not retrieve that information right now. Please try again."

/- ### Chat frontend (`App.js`, embedded from the source) -/

/-- One entry of the `messages` state array of `App.js`: message text, sender
tag, and the `isLoading` marker of the placeholder (absent in the source
means false, modelled as a default). -/
structure ChatMessage where
  text : String
  sender : String
  isLoading : Bool
deriving DecidableEq, Repr

/-- React state of `App` in `App.js`: the `messages` array and the
controlled `inputValue`. -/
structure AppState where
  messages : List ChatMessage
  inputValue : String
deriving DecidableEq, Repr

/-- Outcome of the `fetch` to `/api/query` as observed by
`handleSendMessage`: a fulfilled ok response whose JSON body carried
`response`, a rejected fetch, a response with `ok` false (which the source
turns into a thrown `Error`), or any other exception (e.g., JSON parsing). -/
inductive FetchOutcome where
  | success (response : String)
  | networkError
  | httpNotOk
  | thrownError
deriving DecidableEq, Repr

/-- True exactly for the outcomes that reach the `catch` block of
`handleSendMessage`. -/
def FetchOutcome.isFailure : FetchOutcome → Bool
  | .success _ => false
  | _ => true

/-- The fixed apology text appended by the `catch` block of
`handleSendMessage` (App.js line 57). -/
def errorReplyText : String :=
  "Sorry, there was an error processing your request. Please try again."

/-- `handleSendMessage` from `App.js`, embedded as a state transition: a
blank (whitespace-only) input returns early; otherwise the user message is
appended, the input cleared, a loading placeholder appended, the backend
queried with the user message, and finally every loading message is filtered
out before the reply (the parsed `data.response` on success, the fixed
apology on any failure) is appended.  The second component is the query sent
to the backend, `none` when no request was issued. -/
def handleSendMessage (outcome : FetchOutcome) (s : AppState) : AppState × Option String :=
  if trimStr s.inputValue = "" then (s, none)
  else
    let userMessage := s.inputValue
    let afterUser := s.messages ++ [⟨userMessage, "user", false⟩]
    let withLoading := afterUser ++ [⟨"Thinking...", "assistant", true⟩]
    match outcome with
    | .success response =>
      (⟨(withLoading.filter fun m => !m.isLoading) ++ [⟨response, "assistant", false⟩], ""⟩,
        some userMessage)
    | _ =>
      (⟨(withLoading.filter fun m => !m.isLoading) ++ [⟨errorReplyText, "assistant", false⟩], ""⟩,
        some userMessage)

/- ### Order facts about the ranked-list rendering relation -/

instance : IsTotal FareRecord fareLe := by
  constructor
  intro a b
  rcases lt_trichotomy a.price b.price with h | h | h
  · exact Or.inl (Or.inl h)
  · rcases le_total a.flightNumber b.flightNumber with hf | hf
    · exact Or.inl (Or.inr ⟨h, hf⟩)
    · exact Or.inr (Or.inr ⟨h.symm, hf⟩)
  · exact Or.inr (Or.inl h)

instance : IsTrans FareRecord fareLe := by
  constructor
  intro a b c hab hbc
  rcases hab with h1 | ⟨e1, f1⟩ <;> rcases hbc with h2 | ⟨e2, f2⟩
  · exact Or.inl (h1.trans h2)
  · exact Or.inl (e2 ▸ h1)
  · exact Or.inl (e1 ▸ h2)
  · exact Or.inr ⟨e1.trans e2, f1.trans f2⟩

/- ### Helper lemmas -/

/-- A response the parser accepts satisfies the schema predicate. -/
theorem parse_ok_schemaValid (r : LlmRawResponse) (c : Classification)
    (hp : parseLlmResponse r = Except.ok c) : schemaValid r = true := by
  cases r with
  | noJson t => simp [parseLlmResponse] at hp
  | jsonObject tag fields =>
    by_cases h1 : tag = "flight_status"
    · subst h1
      cases hl : fields.lookup "flight_number" with
      | none => simp [parseLlmResponse, hl] at hp
      | some fn =>
        by_cases hfn : isAlphanumStr fn = true
        · simp [schemaValid, hl, hfn]
        · simp [parseLlmResponse, hl, hfn] at hp
    · by_cases h2 : tag = "flight_analytics"
      · subst h2
        by_cases ho : (fields.lookup "origin").all isAirportCode = true
        · by_cases hd : (fields.lookup "destination").all isAirportCode = true
          · simp [schemaValid, ho, hd]
          · simp [parseLlmResponse, ho, hd] at hp
        · simp [parseLlmResponse, ho] at hp
      · by_cases h3 : tag = "unknown"
        · simp [schemaValid, h3]
        · simp [parseLlmResponse, h1, h2, h3] at hp

/- ### Claim theorems -/

/-- C1: whenever the LLM path fails (ClassifierFailure of any reason) or no
LLM backend is configured, QueryClassifier.classify returns exactly the
result of RuleBasedClassifier on the utterance alone — the failure is never
propagated and the rule-based path sees no cross-turn context. -/
theorem queryClassifier_fallback (backend : Option LlmBackend) (u : String)
    (mem : ConversationMemory)
    (h : backend = none ∨ ∃ llm e, backend = some llm ∧
      LLMClassifier.classify (llm u (recentWindow llmWindow mem)) = Except.error e) :
    QueryClassifier.classify backend u mem = RuleBasedClassifier.classify u := by
  rcases h with h | ⟨llm, e, hb, he⟩
  · subst h
    rfl
  · subst hb
    show (match LLMClassifier.classify (llm u (recentWindow llmWindow mem)) with
          | Except.ok c => c
          | Except.error _ => RuleBasedClassifier.classify u) =
        RuleBasedClassifier.classify u
    rw [he]

theorem queryClassifier_fallback_witness :
    QueryClassifier.classify (some fun _ _ => LlmOutcome.timeout) "hi" [] =
      RuleBasedClassifier.classify "hi" :=
  queryClassifier_fallback _ _ _
    (Or.inr ⟨_, ClassifierFailureReason.timeout, rfl, rfl⟩)

/-- C2: an LLM response that violates the Classification schema (not
parseable into one of the three variants, or with an invalid field type)
always makes LLMClassifier.classify return a ClassifierFailure, never any
Classification — in particular never Unknown as a stand-in. -/
theorem llmClassifier_schema_violation (r : LlmRawResponse)
    (h : schemaValid r = false) :
    ∃ e, LLMClassifier.classify (LlmOutcome.responded r) = Except.error e := by
  cases hp : parseLlmResponse r with
  | error e => exact ⟨e, by simp [LLMClassifier.classify, hp]⟩
  | ok c => exact absurd (parse_ok_schemaValid r c hp) (by simp [h])

theorem llmClassifier_schema_violation_witness :
    ∃ e, LLMClassifier.classify
        (LlmOutcome.responded (LlmRawResponse.jsonObject "flight_analytics"
          [("origin", "SFOX")])) = Except.error e :=
  llmClassifier_schema_violation _ (by decide)

/-- C5: RuleBasedClassifier.classify, a total function by construction,
returns Unknown on every utterance lacking any recognizable flight-number
token and lacking a pair of distinct airport-code tokens. -/
theorem ruleBased_defaults_to_unknown (u : String)
    (h1 : (tokenize u).all (fun t => !isFlightNumberToken t) = true)
    (h2 : ((tokenize u).filter isAirportCode).eraseDups.length < 2) :
    RuleBasedClassifier.classify u = Classification.unknown := by
  have hf : (tokenize u).find? isFlightNumberToken = none := by
    rw [List.find?_eq_none]
    intro x hx
    simpa using (List.all_eq_true.mp h1) x hx
  unfold RuleBasedClassifier.classify ruleFlightStatus ruleFlightAnalytics extractRoute
  rcases hl : ((tokenize u).filter isAirportCode).eraseDups with _ | ⟨a, _ | ⟨b, rest⟩⟩
  · simp [hf, hl]
  · simp [hf, hl]
  · rw [hl] at h2
    simp at h2
    omega

theorem ruleBased_defaults_to_unknown_witness :
    RuleBasedClassifier.classify "please help me plan something nice" =
      Classification.unknown :=
  ruleBased_defaults_to_unknown _ (by decide) (by decide)

/-- C3: follow-up resolution copies a field from memory only when that field
is unset in the new classification, and every explicitly stated field keeps
its stated value; in particular memory `origin=SFO, destination=JFK` with a
new `origin unset, destination=DEN` resolves to `origin=SFO,
destination=DEN`. -/
theorem followUp_fills_only_gaps :
    (∀ (p : FlightAnalyticsPayload) (mem : ConversationMemory),
      (resolvePayload p mem).origin =
        (if p.origin.isSome then p.origin
         else (mostRecentAnalytics mem).bind FlightAnalyticsPayload.origin) ∧
      (resolvePayload p mem).destination =
        (if p.destination.isSome then p.destination
         else (mostRecentAnalytics mem).bind FlightAnalyticsPayload.destination) ∧
      (resolvePayload p mem).intentModifier = p.intentModifier) ∧
    resolvePayload ⟨none, some "DEN", "cheapest"⟩
        [⟨"show me flights from SFO to JFK",
          Classification.flightAnalytics ⟨some "SFO", some "JFK", "cheapest"⟩, 0⟩] =
      ⟨some "SFO", some "DEN", "cheapest"⟩ := by
  constructor
  · intro p mem
    unfold resolvePayload
    cases mostRecentAnalytics mem with
    | none =>
      rcases p with ⟨o, d, m⟩
      cases o <;> cases d <;> simp
    | some q =>
      rcases p with ⟨o, d, m⟩
      cases o <;> cases d <;> simp
  · rfl

/-- C4: follow-up resolution inherits only from the most recent prior
FlightAnalytics turn — appending a FlightStatus turn changes nothing — and
when a field stays unset after scanning, the Router answers with a
MissingEntity clarification naming that field, issuing no collaborator
call. -/
theorem sameIntent_inheritance (collab : Collaborators) (p : FlightAnalyticsPayload)
    (mem : ConversationMemory) (t : ConversationTurn) (fn : String)
    (ht : t.classification = Classification.flightStatus fn) :
    mostRecentAnalytics (mem ++ [t]) = mostRecentAnalytics mem ∧
    resolvePayload p (mem ++ [t]) = resolvePayload p mem ∧
    ((resolvePayload p mem).origin = none →
      Router.handle collab (Classification.flightAnalytics p) mem =
        (AgentResult.missingEntity "origin", none)) ∧
    ((resolvePayload p mem).origin.isSome = true →
      (resolvePayload p mem).destination = none →
      Router.handle collab (Classification.flightAnalytics p) mem =
        (AgentResult.missingEntity "destination", none)) := by
  have hm : mostRecentAnalytics (mem ++ [t]) = mostRecentAnalytics mem := by
    unfold mostRecentAnalytics
    rw [List.reverse_append]
    simp [findAnalytics, ht]
  refine ⟨hm, ?_, ?_, ?_⟩
  · unfold resolvePayload
    rw [hm]
  · intro h
    show dispatch collab (Classification.flightAnalytics (resolvePayload p mem)) = _
    rcases hrp : resolvePayload p mem with ⟨o, d, m⟩
    rw [hrp] at h
    have ho : o = none := h
    subst ho
    rfl
  · intro h1 h2
    show dispatch collab (Classification.flightAnalytics (resolvePayload p mem)) = _
    rcases hrp : resolvePayload p mem with ⟨o, d, m⟩
    rw [hrp] at h1 h2
    have hd : d = none := h2
    subst hd
    obtain ⟨v, hv⟩ := Option.isSome_iff_exists.mp h1
    subst hv
    rfl

theorem sameIntent_inheritance_witness :
    mostRecentAnalytics
        ([] ++ [⟨"status of AA123", Classification.flightStatus "AA123", 0⟩]) = none ∧
    Router.handle constCollab
        (Classification.flightAnalytics ⟨none, none, "cheapest"⟩) [] =
      (AgentResult.missingEntity "origin", none) :=
  ⟨((sameIntent_inheritance constCollab ⟨none, none, "cheapest"⟩ []
      ⟨"status of AA123", Classification.flightStatus "AA123", 0⟩ "AA123" rfl).1).trans rfl,
   (sameIntent_inheritance constCollab ⟨none, none, "cheapest"⟩ []
      ⟨"status of AA123", Classification.flightStatus "AA123", 0⟩ "AA123" rfl).2.2.1 rfl⟩

/-- C6: a classification that is Unknown, or a follow-up still unresolved
after memory scanning, makes Router.handle return a clarification
AgentResult with no collaborator invocation recorded. -/
theorem router_short_circuits (collab : Collaborators) (mem : ConversationMemory)
    (p : FlightAnalyticsPayload) :
    Router.handle collab Classification.unknown mem = (AgentResult.clarifyUnknown, none) ∧
    (((resolvePayload p mem).origin = none ∨ (resolvePayload p mem).destination = none) →
      (Router.handle collab (Classification.flightAnalytics p) mem).2 = none) := by
  refine ⟨rfl, ?_⟩
  intro h
  show (dispatch collab (Classification.flightAnalytics (resolvePayload p mem))).2 = none
  rcases hrp : resolvePayload p mem with ⟨o, d, m⟩
  rw [hrp] at h
  rcases h with h | h
  · have ho : o = none := h
    subst ho
    rfl
  · have hd : d = none := h
    subst hd
    cases o <;> rfl

theorem router_short_circuits_witness :
    (Router.handle constCollab
        (Classification.flightAnalytics ⟨none, some "JFK", "fare"⟩) []).2 = none :=
  (router_short_circuits constCollab [] ⟨none, some "JFK", "fare"⟩).2 (Or.inl rfl)

/-- C7: a handled turn appends exactly one ConversationTurn — the prior
memory survives as an unchanged prefix, the length grows by one, and the
appended turn carries the classification actually used, memory-filled
fields included.  Classifiers are pure functions of the model and cannot
mutate memory. -/
theorem memory_append_only (collab : Collaborators) (backend : Option LlmBackend)
    (mem : ConversationMemory) (u : String) (now : Nat) :
    ((Session.handleTurn collab backend mem u now).2.take mem.length = mem) ∧
    ((Session.handleTurn collab backend mem u now).2.length = mem.length + 1) ∧
    ((Session.handleTurn collab backend mem u now).2.getLast? =
      some ⟨u, resolveFollowUp (QueryClassifier.classify backend u mem) mem, now⟩) := by
  refine ⟨?_, ?_, ?_⟩
  · show (mem ++ [_]).take mem.length = mem
    simp
  · show (mem ++ [_]).length = mem.length + 1
    simp
  · show (mem ++ [_]).getLast? = _
    simp

/-- C8: ResponseFormatter.format is a pure function — formatting the same
AgentResult twice yields identical text — and the enumeration order of
ranked rows is sorted by the fare with ties broken by the flight number, so
the rendering is deterministic for identical input data. -/
theorem formatter_pure_and_stable :
    (∀ res : AgentResult, ResponseFormatter.format res = ResponseFormatter.format res) ∧
    (∀ rows : List FareRecord, (rankRows rows).Sorted fareLe) :=
  ⟨fun _ => rfl, fun rows => List.sorted_insertionSort fareLe rows⟩

/-- Every message surviving the loading filter, plus a non-loading appended
reply, is non-loading. -/
theorem noLoading_append (l : List ChatMessage) (m0 : ChatMessage)
    (h0 : m0.isLoading = false) :
    ∀ m ∈ (l.filter fun m => !m.isLoading) ++ [m0], m.isLoading = false := by
  intro m hm
  rw [List.mem_append] at hm
  rcases hm with hm | hm
  · simpa using (List.mem_filter.mp hm).2
  · simp at hm
    subst hm
    exact h0

/-- C9: on every failed backend request — rejected fetch, non-ok HTTP
response, or any other thrown exception — `handleSendMessage` drops the
loading placeholder and ends the message list with the fixed plain-language
apology as the assistant reply; no raw error reaches the list. -/
theorem frontend_error_reply (s : AppState) (o : FetchOutcome)
    (hfail : o.isFailure = true) (hne : trimStr s.inputValue ≠ "") :
    ((handleSendMessage o s).1.messages.getLast? =
      some ⟨errorReplyText, "assistant", false⟩) ∧
    (∀ m ∈ (handleSendMessage o s).1.messages, m.isLoading = false) := by
  unfold handleSendMessage
  rw [if_neg hne]
  cases o with
  | success r => simp [FetchOutcome.isFailure] at hfail
  | networkError => exact ⟨by simp, noLoading_append _ _ rfl⟩
  | httpNotOk => exact ⟨by simp, noLoading_append _ _ rfl⟩
  | thrownError => exact ⟨by simp, noLoading_append _ _ rfl⟩

theorem frontend_error_reply_witness :
    (handleSendMessage FetchOutcome.networkError ⟨[], "hello"⟩).1.messages.getLast? =
      some ⟨errorReplyText, "assistant", false⟩ :=
  (frontend_error_reply ⟨[], "hello"⟩ FetchOutcome.networkError rfl (by decide)).1

/-- C10: a whitespace-only input makes `handleSendMessage` return with the
state untouched and no backend request issued; with a real input, the
request carries the user message and the completed turn leaves no loading
placeholder in the message list, whatever the outcome. -/
theorem frontend_blank_noop_no_loading (s : AppState) (o : FetchOutcome) :
    (trimStr s.inputValue = "" → handleSendMessage o s = (s, none)) ∧
    (trimStr s.inputValue ≠ "" →
      (handleSendMessage o s).2 = some s.inputValue ∧
      ∀ m ∈ (handleSendMessage o s).1.messages, m.isLoading = false) := by
  constructor
  · intro h
    unfold handleSendMessage
    rw [if_pos h]
  · intro h
    unfold handleSendMessage
    rw [if_neg h]
    cases o with
    | success r => exact ⟨rfl, noLoading_append _ _ rfl⟩
    | networkError => exact ⟨rfl, noLoading_append _ _ rfl⟩
    | httpNotOk => exact ⟨rfl, noLoading_append _ _ rfl⟩
    | thrownError => exact ⟨rfl, noLoading_append _ _ rfl⟩

theorem frontend_blank_noop_no_loading_witness :
    handleSendMessage FetchOutcome.networkError ⟨[], "   "⟩ = (⟨[], "   "⟩, none) :=
  (frontend_blank_noop_no_loading ⟨[], "   "⟩ FetchOutcome.networkError).1 (by decide)
